import Mathlib

/-!
Verification of the R-to-polars Series conversion core of r-polars.

Shallow embedding of `src/rust/src/rdataframe/r_to_series.rs` and
`src/rust/src/rdatatype.rs`:
  * `DataType` models `pl::DataType` (the variants this code constructs).
  * `Series` models `pl::Series` as (name, dtype, slots); a slot is
    `Option PValue` (None = missing marker).  Numeric payloads are opaque
    (modelled as `Int`): the Rust code only moves values, it never computes
    with them, so the payload carrier is irrelevant to every claim.
  * `SeriesTree` models the intermediate enum `SeriesTree`
    (`Series` / `SeriesVec` / `SeriesEmptyVec`).
  * `Robj` models the runtime shapes of the R objects that
    `recursive_robjname2series_tree` dispatches on (`Rtype::Doubles`,
    `Strings`, `Logicals`, `Integers` with/without the `factor` class,
    `Null`, `List`, other).
  * Panics (`panic!`, `unreachable!`) are modelled as distinct error /
    result constructors, kept apart from recoverable `Result::Err` values.
-/

/-- Models `pl::DataType` restricted to the variants the two source files
construct (`DataType::new`, `new_list`, plus types produced by the series
builder). `categorical` stands for `Categorical(None)`. -/
inductive DataType where
  | boolean
  | uint8
  | uint16
  | uint32
  | uint64
  | int8
  | int16
  | int32
  | int64
  | float32
  | float64
  | utf8
  | binary
  | date
  | time
  | null
  | categorical
  | unknown
  | list (inner : DataType)
deriving DecidableEq, Repr

/-- Models `DataType::new(s)` from rdatatype.rs lines 13-41: the alias match.
`none` models the `panic!("data type not recgnized")` fallthrough arm. -/
def DataType.new : String → Option DataType
  | "Boolean" | "logical" => some .boolean
  | "UInt8" | "uinteger8" => some .uint8
  | "UInt16" | "uinteger16" => some .uint16
  | "UInt32" | "uinteger32" => some .uint32
  | "UInt64" | "uinteger64" => some .uint64
  | "Int8" | "integer8" => some .int8
  | "Int16" | "integer16" => some .int16
  | "Int32" | "integer32" | "integer" => some .int32
  | "Int64" | "integer64" => some .int64
  | "Float32" | "float32" | "double" => some .float32
  | "Float64" | "float64" => some .float64
  | "Utf8" | "character" => some .utf8
  | "Binary" | "binary" => some .binary
  | "Date" | "date" => some .date
  | "Time" | "time" => some .time
  | "Null" | "null" => some .null
  | "Categorical" | "factor" => some .categorical
  | "Unknown" | "unknown" => some .unknown
  | _ => none

/-- Models `DataType::new_list(inner)` from rdatatype.rs lines 51-53. -/
def DataType.new_list (inner : DataType) : DataType := .list inner

/-- Models `DataType::get_all_simple_type_names()` from rdatatype.rs
lines 63-84: the fixed catalog of non-parameterized type names. -/
def DataType.get_all_simple_type_names : List String :=
  ["Boolean", "UInt8", "UInt16", "UInt32", "UInt64",
   "Int8", "Int16", "Int32", "Int64",
   "Float32", "Float64", "Utf8", "Binary", "Date", "Time",
   "Null", "Categorical", "Unknown"]

/-- A value stored in one slot of a Series.  Double and i32 payloads are
opaque `Int`s (the code never computes with them); a `listv` slot is one
row of a list-typed series, i.e. a sub-series worth of slots. -/
inductive PValue where
  | f64 (x : Int)
  | i32 (x : Int)
  | bv (x : Bool)
  | str (s : String)
  | listv (xs : List (Option PValue))
deriving Repr

/-- Models `pl::Series`: a named, dtyped, ordered sequence of slots,
each slot present (`some`) or the missing marker (`none`). -/
structure Series where
  name : String
  dtype : DataType
  values : List (Option PValue)
deriving Repr

/-- Models `Series::cast(dt)` as used by this file.  The two casts the
source performs — a zero-length list series cast to the resolved leaf
dtype, and a Utf8 series of factor labels cast to `Categorical(None)` —
always succeed and retag the dtype while preserving the slots, so the
model is total. -/
def Series.castTo (s : Series) (dt : DataType) : Series :=
  { s with dtype := dt }

/-- Models the intermediate enum `SeriesTree` from r_to_series.rs
lines 13-18: `series` = `SeriesTree::Series` (leaf), `seriesVec` =
`SeriesTree::SeriesVec` (branch), `seriesEmptyVec` =
`SeriesTree::SeriesEmptyVec` (empty/untyped marker). -/
inductive SeriesTree where
  | series (s : Series)
  | seriesVec (sv : List SeriesTree)
  | seriesEmptyVec
deriving Repr

mutual

/-- Models `find_first_leaf_datatype(&st)` from r_to_series.rs lines
33-44: depth-first, left-to-right, first-match search for a leaf dtype. -/
def find_first_leaf_datatype : SeriesTree → Option DataType
  | .series s => some s.dtype
  | .seriesEmptyVec => none
  | .seriesVec sv => findFirstLeafList sv

/-- The `sv.iter().map(..).filter(is_some).next().flatten()` scan:
first `some` among the children, in order, short-circuiting. -/
def findFirstLeafList : List SeriesTree → Option DataType
  | [] => none
  | t :: ts =>
    match find_first_leaf_datatype t with
    | some d => some d
    | none => findFirstLeafList ts

end

mutual

/-- `true` iff the tree is Empty at every depth: no `series` leaf anywhere. -/
def SeriesTree.allEmptyB : SeriesTree → Bool
  | .series _ => false
  | .seriesEmptyVec => true
  | .seriesVec sv => allEmptyListB sv

/-- List version of `SeriesTree.allEmptyB`. -/
def allEmptyListB : List SeriesTree → Bool
  | [] => true
  | t :: ts => t.allEmptyB && allEmptyListB ts

end

mutual

/-- `true` iff no `seriesVec` node anywhere in the tree has zero children
(the structural invariant the Builder is supposed to maintain). -/
def SeriesTree.noEmptyBranchB : SeriesTree → Bool
  | .series _ => true
  | .seriesEmptyVec => true
  | .seriesVec sv => !sv.isEmpty && noEmptyBranchListB sv

/-- List version of `SeriesTree.noEmptyBranchB`. -/
def noEmptyBranchListB : List SeriesTree → Bool
  | [] => true
  | t :: ts => t.noEmptyBranchB && noEmptyBranchListB ts

end

/-- Models the errors of `pl::PolarsResult` as produced by this file,
plus a separate constructor for panics.  `schemaMisMatch first other`
models `PolarsError::SchemaMisMatch` carrying, in its formatted message,
the first sub-element's dtype and the mismatching sub-element's dtype
(r_to_series.rs lines 162-165); the model carries both dtypes
structurally.  `invariantViolationPanic` models the `unreachable!` panic
(not a recoverable `Err`).  `notFound` models `PolarsError::NotFound`. -/
inductive PolarsErr where
  | notFound (msg : String)
  | schemaMisMatch (first other : DataType)
  | invariantViolationPanic (msg : String)
deriving DecidableEq, Repr

/-- Models the runtime-reported shapes (`Rtype`) of the R objects that
`recursive_robjname2series_tree` dispatches on.  A slot `none` is an R
`NA`; numeric payloads are opaque `Int`s.  `factor` is an integer vector
with the `factor` class (`Rtype::Integers if x.inherits("factor")`):
1-based `codes` into `levels`.  `rlist` children carry their R names
(the empty string for unnamed elements, as extendr's list iterator
yields).  `unsupported` covers every other `Rtype`, carrying its debug
name. -/
inductive Robj where
  | doubles (xs : List (Option Int))
  | strings (xs : List (Option String))
  | logicals (xs : List (Option Bool))
  | factor (levels : List String) (codes : List (Option Nat))
  | integers (xs : List (Option Int))
  | nullR
  | rlist (children : List (String × Robj))
  | unsupported (rtypeName : String)
deriving Repr

/-- `Doubles::no_na` / `Integers::no_na` / `Strings::no_na`. -/
def noNa {α : Type} (xs : List (Option α)) : Bool :=
  xs.all Option.isSome

/-- The fast path of the `Rtype::Doubles` arm (r_to_series.rs lines
55-58): `pl::Series::new(name, x.as_real_slice().unwrap())` — the series
is built from the raw f64 buffer.  Only reached when `no_na`, so the raw
buffer is exactly the present payloads in order. -/
def doublesFastSeries (xs : List (Option Int)) (name : String) : Series :=
  { name := name, dtype := .float64,
    values := (xs.filterMap id).map (fun v => some (.f64 v)) }

/-- The per-element path of the `Rtype::Doubles` arm (lines 60-65):
each element mapped to `Some(value)` / `None`, collected, renamed. -/
def doublesSlowSeries (xs : List (Option Int)) (name : String) : Series :=
  { name := name, dtype := .float64, values := xs.map (Option.map .f64) }

/-- The fast path of the `Rtype::Integers` arm (line 89). -/
def intsFastSeries (xs : List (Option Int)) (name : String) : Series :=
  { name := name, dtype := .int32,
    values := (xs.filterMap id).map (fun v => some (.i32 v)) }

/-- The per-element path of the `Rtype::Integers` arm (lines 92-97). -/
def intsSlowSeries (xs : List (Option Int)) (name : String) : Series :=
  { name := name, dtype := .int32, values := xs.map (Option.map .i32) }

/-- The fast path of `robj_to_utf8_series` (line 178):
`pl::Series::new(name, rstrings.as_robj().as_str_vector().unwrap())`. -/
def stringsFastSeries (xs : List (Option String)) (name : String) : Series :=
  { name := name, dtype := .utf8,
    values := (xs.filterMap id).map (fun v => some (.str v)) }

/-- The per-element path of `robj_to_utf8_series` (lines 181-186). -/
def stringsSlowSeries (xs : List (Option String)) (name : String) : Series :=
  { name := name, dtype := .utf8, values := xs.map (Option.map .str) }

/-- Models `robj_to_utf8_series(rstrings, name)` from r_to_series.rs
lines 176-188: no-NA fast path from the raw `&str` vector, otherwise
per-element `Some`/`None` mapping. -/
def robj_to_utf8_series (xs : List (Option String)) (name : String) : Series :=
  if noNa xs then stringsFastSeries xs name else stringsSlowSeries xs name

/-- R's rendering of one 1-based factor code to its level label
(`as_character_factor`); out-of-range codes render as `NA`. -/
def factorLabel (levels : List String) (i : Nat) : Option String :=
  if i = 0 then none else levels.get? (i - 1)

/-- Models `x.as_character_factor()`: the factor's integer codes rendered
to their string labels, `NA` staying `NA`. -/
def renderFactor (levels : List String) (codes : List (Option Nat)) :
    List (Option String) :=
  codes.map (fun c => c.bind (factorLabel levels))

mutual

/-- Models `recursive_robjname2series_tree(x, name)` from r_to_series.rs
lines 47-124: the dispatch on `x.rtype()`.  The `factor` arm is the
guarded `Rtype::Integers if x.inherits("factor")` arm (lines 80-84); the
final arm models the `_ => Err(PolarsError::NotFound(..))` fallthrough
(lines 120-122). -/
def recursive_robjname2series_tree : Robj → String → Except PolarsErr SeriesTree
  | .doubles xs, name =>
    if noNa xs then .ok (.series (doublesFastSeries xs name))
    else .ok (.series (doublesSlowSeries xs name))
  | .strings xs, name => .ok (.series (robj_to_utf8_series xs name))
  | .logicals xs, name =>
    .ok (.series { name := name, dtype := .boolean,
                   values := xs.map (Option.map .bv) })
  | .factor levels codes, name =>
    .ok (.series
      ((robj_to_utf8_series (renderFactor levels codes) name).castTo .categorical))
  | .integers xs, name =>
    if noNa xs then .ok (.series (intsFastSeries xs name))
    else .ok (.series (intsSlowSeries xs name))
  | .nullR, _ => .ok .seriesEmptyVec
  | .rlist children, _ =>
    match buildChildren children with
    | .error e => .error e
    | .ok vst =>
      if vst.length = 0 then .ok .seriesEmptyVec
      else .ok (.seriesVec vst)
  | .unsupported rtypeName, _ =>
    .error (.notFound
      ("new series from rtype " ++ rtypeName ++ " is not supported (yet)"))

/-- The `x.as_list().unwrap().iter().map(..).collect::<PolarsResult<Vec<_>>>()`
step (lines 105-110): convert every named child in order, failing fast on
the first error. -/
def buildChildren : List (String × Robj) → Except PolarsErr (List SeriesTree)
  | [] => .ok []
  | (n, r) :: rest =>
    match recursive_robjname2series_tree r n with
    | .error e => .error e
    | .ok t =>
      match buildChildren rest with
      | .error e => .error e
      | .ok ts => .ok (t :: ts)

end

/-- The panic message of the `unreachable!` arm
(r_to_series.rs lines 143-145). -/
def emptyVecPanicMsg : String :=
  "internal error: A series tree was built with a literal empty vector, instead of using the SeriesEmptyVec flag"

/-- First dtype among `rest` differing from `d0`, scanning in order:
the `for s_ref in s_iter { if s_ref.dtype() != first_s.dtype() .. }` loop
(r_to_series.rs lines 158-167). -/
def firstMismatch (d0 : DataType) : List Series → Option DataType
  | [] => none
  | s :: rest => if s.dtype = d0 then firstMismatch d0 rest else some s.dtype

/-- Models `pl::Series::new(name, series_vec)` on a vector of sub-series
of one common dtype: a nested list series, one `listv` row per child,
dtype `List(child dtype)`.  (Only ever applied to a non-empty vector of
equal-dtyped children; the `.null` default is a dead value.) -/
def mergeSeries (name : String) (children : List Series) : Series :=
  { name := name,
    dtype := .list ((children.head?.map Series.dtype).getD .null),
    values := children.map (fun c => some (.listv c.values)) }

mutual

/-- Models `concat_series_tree(st, leaf_dtype, name)` from r_to_series.rs
lines 127-173.  The `seriesEmptyVec` arm builds
`pl::Series::new(name, [0f64; 0]).to_list()?.slice(0, 0)` — a zero-length
series of dtype `List(Float64)` — and casts it to the leaf dtype when one
was resolved.  The `seriesVec` guard arm (`sv.len() == 0`) models the
`unreachable!` panic. -/
def concat_series_tree (st : SeriesTree) (leaf_dtype : Option DataType)
    (name : String) : Except PolarsErr Series :=
  match st with
  | .series s => .ok s
  | .seriesEmptyVec =>
    let s : Series := { name := name, dtype := .list .float64, values := [] }
    match leaf_dtype with
    | some dt => .ok (s.castTo dt)
    | none => .ok s
  | .seriesVec sv =>
    if sv.isEmpty then .error (.invariantViolationPanic emptyVecPanicMsg)
    else
      match concatChildren sv leaf_dtype with
      | .error e => .error e
      | .ok [] => .ok (mergeSeries name [])
      | .ok (c0 :: cs) =>
        match firstMismatch c0.dtype cs with
        | some d => .error (.schemaMisMatch c0.dtype d)
        | none => .ok (mergeSeries name (c0 :: cs))

/-- The `sv.into_iter().map(|inner| concat_series_tree(inner, leaf_dtype, "")).collect()`
step (lines 149-152): children are concatenated under the empty name,
failing fast on the first error. -/
def concatChildren (sv : List SeriesTree) (leaf_dtype : Option DataType) :
    Except PolarsErr (List Series)  :=
  match sv with
  | [] => .ok []
  | t :: ts =>
    match concat_series_tree t leaf_dtype "" with
    | .error e => .error e
    | .ok c =>
      match concatChildren ts leaf_dtype with
      | .error e => .error e
      | .ok cs => .ok (c :: cs)

end

/-- Models `robjname2series(x, name)` from r_to_series.rs lines 21-30:
build the tree, resolve the first leaf dtype, concatenate. -/
def robjname2series (x : Robj) (name : String) : Except PolarsErr Series :=
  match recursive_robjname2series_tree x name with
  | .error e => .error e
  | .ok st => concat_series_tree st (find_first_leaf_datatype st) name

/-- Models one element of the R list handed to
`DataTypeVector::from_rlist`: an arbitrary R object, of which the
validation reads only whether it `inherits("DataType")`, whether its
`rtype()` is `ExternalPtr`, and (when both hold) the `DataType` payload
behind the external pointer. -/
structure RDynEntry where
  inheritsDataType : Bool
  isExternalPtr : Bool
  payload : DataType
deriving DecidableEq, Repr

/-- The validity test of rdatatype.rs line 133, un-negated:
the object carries a recognized type payload. -/
def RDynEntry.validB (e : RDynEntry) : Bool :=
  e.inheritsDataType && e.isExternalPtr

/-- The error message of rdatatype.rs line 134 (`NotADataType`). -/
def notADataTypeMsg : String := "Internal error: Object is not a DataType"

/-- Models `DataTypeVector::from_rlist(list)` from rdatatype.rs lines
127-145: validate every entry in order, failing fast with
`notADataTypeMsg` at the first invalid one; on success the vector has one
`(Nullable::NotNull(name), dtype)` entry per source entry, in order.
(The source wraps the outcome with `r_result_list`; the `Except` models
that Ok/Err outcome.) -/
def DataTypeVector.from_rlist :
    List (String × RDynEntry) → Except String (List (Option String × DataType))
  | [] => .ok []
  | (name, e) :: rest =>
    if !e.inheritsDataType || !e.isExternalPtr then .error notADataTypeMsg
    else
      match DataTypeVector.from_rlist rest with
      | .error msg => .error msg
      | .ok tail => .ok ((some name, e.payload) :: tail)

/-- Models `pl::JoinType` (the variants `new_join_type` constructs). -/
inductive JoinType where
  | cross
  | inner
  | left
  | outer
  | semi
  | anti
deriving DecidableEq, Repr

/-- Models `pl::RankMethod` (the variants `new_rank_method` constructs). -/
inductive RankMethod where
  | average
  | dense
  | max
  | min
  | ordinal
  | random
deriving DecidableEq, Repr

/-- Outcome of a string-to-enum resolver: a matched value, a recoverable
`Result::Err` message, or a `panic!` (unrecoverable), kept distinct. -/
inductive ResolveResult (α : Type) where
  | ok (val : α)
  | err (msg : String)
  | panicked (msg : String)
deriving DecidableEq, Repr

/-- `true` iff the outcome is a recoverable `Result::Err`. -/
def ResolveResult.isErrB {α : Type} : ResolveResult α → Bool
  | .err _ => true
  | _ => false

/-- The panic message of rdatatype.rs line 163. -/
def joinTypePanicMsg : String := "rpolars internal error: jointype not recognized"

/-- Models `new_join_type(s)` from rdatatype.rs lines 155-165: an exact
(case-sensitive) match returning `pl::JoinType` directly; the
fallthrough arm is `panic!(joinTypePanicMsg)`, not a `Result::Err`. -/
def new_join_type : String → ResolveResult JoinType
  | "cross" => .ok .cross
  | "inner" => .ok .inner
  | "left" => .ok .left
  | "outer" => .ok .outer
  | "semi" => .ok .semi
  | "anti" => .ok .anti
  | _ => .panicked joinTypePanicMsg

/-- ASCII lowercasing of one character: uppercase `A`-`Z` maps to its
lowercase counterpart, everything else is unchanged. -/
def asciiLowerChar (c : Char) : Char :=
  if 'A' ≤ c ∧ c ≤ 'Z' then Char.ofNat (c.toNat + 32) else c

/-- Models Rust's `str::to_lowercase()` on the inputs this code compares
against (all ASCII): per-character ASCII lowercasing. -/
def rustToLowercase (s : String) : String :=
  String.mk (s.data.map asciiLowerChar)

/-- Models `new_rank_method(s)` from rdatatype.rs lines 210-225: the
input is lowercased first (`s.to_lowercase()`), then matched; the
fallthrough arm is a recoverable `Err` naming the lowercased input and
the accepted choices. -/
def new_rank_method (s : String) : ResolveResult RankMethod :=
  match rustToLowercase s with
  | "average" => .ok .average
  | "dense" => .ok .dense
  | "max" => .ok .max
  | "min" => .ok .min
  | "ordinal" => .ok .ordinal
  | "random" => .ok .random
  | other =>
    .err ("RankMethod choice: [" ++ other
      ++ "] is not any 'average','dense', 'min', 'max', 'ordinal', 'random'")

/-! ## Helper lemmas -/

/-- On a vector with no missing markers, reading the raw buffer and
wrapping each value equals mapping each element through the
present-or-missing conversion. -/
theorem filterMap_map_of_all_isSome {α β : Type} (f : α → β) :
    ∀ xs : List (Option α), xs.all Option.isSome = true →
      (xs.filterMap id).map (fun v => some (f v)) = xs.map (Option.map f)
  | [], _ => rfl
  | o :: t, h => by
    rw [List.all_cons, Bool.and_eq_true] at h
    obtain ⟨ho, ht⟩ := h
    cases o with
    | none => simp at ho
    | some a =>
      simp only [List.filterMap_cons, id, List.map_cons, Option.map_some]
      exact congrArg _ (filterMap_map_of_all_isSome f t ht)

/-- The child scan of `find_first_leaf_datatype` is `List.findSome?`. -/
theorem findFirstLeafList_eq_findSome? :
    ∀ sv : List SeriesTree,
      findFirstLeafList sv = sv.findSome? find_first_leaf_datatype
  | [] => rfl
  | t :: ts => by
    simp only [findFirstLeafList, List.findSome?_cons]
    cases find_first_leaf_datatype t with
    | some d => rfl
    | none => exact findFirstLeafList_eq_findSome? ts

/-- The child scan yields `none` exactly when every child yields `none`. -/
theorem findFirstLeafList_eq_none_iff :
    ∀ sv : List SeriesTree,
      (findFirstLeafList sv = none ↔
        ∀ t ∈ sv, find_first_leaf_datatype t = none)
  | [] => by simp [findFirstLeafList]
  | t :: ts => by
    simp only [findFirstLeafList, List.mem_cons]
    cases h : find_first_leaf_datatype t with
    | some d =>
      constructor
      · intro hc; exact absurd hc (by simp)
      · intro hall; exact absurd (hall t (Or.inl rfl)) (by simp [h])
    | none =>
      rw [findFirstLeafList_eq_none_iff ts]
      constructor
      · intro hall x hx
        rcases hx with hx | hx
        · rw [hx]; exact h
        · exact hall x hx
      · intro hall x hx; exact hall x (Or.inr hx)

mutual

/-- A tree that is Empty at every depth has no leaf dtype. -/
theorem find_none_of_allEmpty :
    ∀ t : SeriesTree, t.allEmptyB = true → find_first_leaf_datatype t = none
  | .series _, h => by simp [SeriesTree.allEmptyB] at h
  | .seriesEmptyVec, _ => rfl
  | .seriesVec sv, h => by
    simp only [SeriesTree.allEmptyB] at h
    simpa only [find_first_leaf_datatype] using findList_none_of_allEmpty sv h

/-- List version of `find_none_of_allEmpty`. -/
theorem findList_none_of_allEmpty :
    ∀ sv : List SeriesTree, allEmptyListB sv = true → findFirstLeafList sv = none
  | [], _ => rfl
  | t :: ts, h => by
    rcases Bool.and_eq_true_iff.mp h with ⟨h1, h2⟩
    simp only [findFirstLeafList, find_none_of_allEmpty t h1]
    exact findList_none_of_allEmpty ts h2

end

/-- The mismatch scan returns `none` exactly when every later child's
dtype equals the first child's. -/
theorem firstMismatch_eq_none_iff (d0 : DataType) :
    ∀ cs : List Series, (firstMismatch d0 cs = none ↔ ∀ c ∈ cs, c.dtype = d0)
  | [] => by simp [firstMismatch]
  | s :: rest => by
    by_cases h : s.dtype = d0
    · rw [firstMismatch, if_pos h, firstMismatch_eq_none_iff d0 rest]
      constructor
      · intro hall c hc
        rcases List.mem_cons.mp hc with rfl | hc
        · exact h
        · exact hall c hc
      · intro hall c hc
        exact hall c (List.mem_cons_of_mem _ hc)
    · rw [firstMismatch, if_neg h]
      constructor
      · intro hc
        exact absurd hc (by simp)
      · intro hall
        exact absurd (hall s (List.mem_cons_self s rest)) h

/-- The mismatch scan reports the dtype of the first child whose dtype
differs from the first child's. -/
theorem firstMismatch_append (d0 : DataType) (bad : Series) (post : List Series) :
    ∀ pre : List Series, (∀ c ∈ pre, c.dtype = d0) → bad.dtype ≠ d0 →
      firstMismatch d0 (pre ++ bad :: post) = some bad.dtype
  | [], _, hbad => by rw [List.nil_append, firstMismatch, if_neg hbad]
  | c :: pre, hpre, hbad => by
    have hc : c.dtype = d0 := hpre c (List.mem_cons_self c pre)
    rw [List.cons_append, firstMismatch, if_pos hc]
    exact firstMismatch_append d0 bad post pre
      (fun x hx => hpre x (List.mem_cons_of_mem _ hx)) hbad

/-- On an all-valid entry list, `from_rlist` succeeds with one
`(some name, payload)` pair per entry, in order. -/
theorem from_rlist_ok_of_all_valid :
    ∀ entries : List (String × RDynEntry),
      entries.all (fun p => p.2.validB) = true →
      DataTypeVector.from_rlist entries =
        .ok (entries.map (fun p => (some p.1, p.2.payload)))
  | [], _ => rfl
  | (name, e) :: rest, h => by
    simp only [List.all_cons, Bool.and_eq_true] at h
    obtain ⟨he, hrest⟩ := h
    have h1 : e.inheritsDataType = true :=
      (Bool.and_eq_true _ _).mp he |>.1
    have h2 : e.isExternalPtr = true :=
      (Bool.and_eq_true _ _).mp he |>.2
    rw [DataTypeVector.from_rlist, if_neg (by simp [h1, h2]),
      from_rlist_ok_of_all_valid rest hrest]
    rfl

/-- With any invalid entry present, `from_rlist` fails with the
`NotADataType` message and returns no vector at all. -/
theorem from_rlist_err_of_any_invalid :
    ∀ entries : List (String × RDynEntry),
      entries.all (fun p => p.2.validB) = false →
      DataTypeVector.from_rlist entries = .error notADataTypeMsg
  | [], h => by simp at h
  | (name, e) :: rest, h => by
    by_cases he : (e.inheritsDataType && e.isExternalPtr) = true
    · have h1 : e.inheritsDataType = true := ((Bool.and_eq_true _ _).mp he).1
      have h2 : e.isExternalPtr = true := ((Bool.and_eq_true _ _).mp he).2
      have hrest : rest.all (fun p => p.2.validB) = false := by
        simpa [List.all_cons, RDynEntry.validB, h1, h2] using h
      rw [DataTypeVector.from_rlist, if_neg (by simp [h1, h2]),
        from_rlist_err_of_any_invalid rest hrest]
    · rw [DataTypeVector.from_rlist, if_pos (by
        rcases Bool.and_eq_false_iff.mp (Bool.eq_false_iff.mpr he) with h1 | h1
        all_goals simp [h1])]

mutual

/-- Every tree the Builder returns satisfies the no-zero-children-Branch
invariant: a zero-children source list becomes `seriesEmptyVec`, so no
`seriesVec` node is ever built with an empty child vector. -/
theorem builder_noEmptyBranch :
    ∀ (x : Robj) (name : String) (t : SeriesTree),
      recursive_robjname2series_tree x name = Except.ok t →
      t.noEmptyBranchB = true
  | .doubles xs, name, t, h => by
    rw [recursive_robjname2series_tree] at h
    split at h <;> (injection h with h; rw [← h]; rfl)
  | .strings xs, name, t, h => by
    rw [recursive_robjname2series_tree] at h
    injection h with h
    rw [← h]; rfl
  | .logicals xs, name, t, h => by
    rw [recursive_robjname2series_tree] at h
    injection h with h
    rw [← h]; rfl
  | .factor levels codes, name, t, h => by
    rw [recursive_robjname2series_tree] at h
    injection h with h
    rw [← h]; rfl
  | .integers xs, name, t, h => by
    rw [recursive_robjname2series_tree] at h
    split at h <;> (injection h with h; rw [← h]; rfl)
  | .nullR, name, t, h => by
    rw [recursive_robjname2series_tree] at h
    injection h with h
    rw [← h]; rfl
  | .rlist children, name, t, h => by
    rw [recursive_robjname2series_tree] at h
    split at h
    · exact absurd h (by simp)
    · next vst heq =>
      split at h
      · injection h with h
        rw [← h]; rfl
      · next hlen =>
        injection h with h
        rw [← h, SeriesTree.noEmptyBranchB,
          buildChildren_noEmptyBranch children vst heq]
        have : vst.isEmpty = false := by
          cases vst with
          | nil => exact absurd rfl hlen
          | cons a l => rfl
        rw [this]
        rfl
  | .unsupported rtypeName, name, t, h => by
    rw [recursive_robjname2series_tree] at h
    exact absurd h (by simp)

/-- List version of `builder_noEmptyBranch`: every tree in a successful
child conversion satisfies the invariant. -/
theorem buildChildren_noEmptyBranch :
    ∀ (l : List (String × Robj)) (ts : List SeriesTree),
      buildChildren l = Except.ok ts → noEmptyBranchListB ts = true
  | [], ts, h => by
    rw [buildChildren] at h
    injection h with h
    rw [← h]; rfl
  | (n, r) :: rest, ts, h => by
    rw [buildChildren] at h
    split at h
    · exact absurd h (by simp)
    · next t heq =>
      split at h
      · exact absurd h (by simp)
      · next ts' heq' =>
        injection h with h
        rw [← h, noEmptyBranchListB, builder_noEmptyBranch r n t heq,
          buildChildren_noEmptyBranch rest ts' heq']
        rfl

end

/-! ## Claim theorems -/

/-- C1: `find_first_leaf_datatype` is a pure depth-first, left-to-right,
first-match search: a Leaf returns `some` of its own dtype, an Empty
returns `none`, a Branch returns the first `some` produced by scanning
its children in order (`List.findSome?`, which short-circuits), and
`none` exactly when every child yields `none`; on a tree that is Empty
at every depth it returns `none`. -/
theorem find_first_leaf_datatype_spec :
    (∀ s : Series, find_first_leaf_datatype (.series s) = some s.dtype) ∧
    (find_first_leaf_datatype .seriesEmptyVec = none) ∧
    (∀ sv : List SeriesTree,
      find_first_leaf_datatype (.seriesVec sv) =
        sv.findSome? find_first_leaf_datatype) ∧
    (∀ sv : List SeriesTree,
      (find_first_leaf_datatype (.seriesVec sv) = none ↔
        ∀ t ∈ sv, find_first_leaf_datatype t = none)) ∧
    (∀ t : SeriesTree, t.allEmptyB = true →
      find_first_leaf_datatype t = none) := by
  refine ⟨fun s => rfl, rfl, fun sv => ?_, fun sv => ?_, find_none_of_allEmpty⟩
  · rw [find_first_leaf_datatype]
    exact findFirstLeafList_eq_findSome? sv
  · rw [find_first_leaf_datatype]
    exact findFirstLeafList_eq_none_iff sv

/-- Witness for C1: on a concrete tree that is Empty at every depth the
search returns `none`. -/
theorem find_first_leaf_datatype_spec_witness :
    find_first_leaf_datatype
      (.seriesVec [.seriesEmptyVec, .seriesVec [.seriesEmptyVec]]) = none :=
  find_first_leaf_datatype_spec.2.2.2.2
    (.seriesVec [.seriesEmptyVec, .seriesVec [.seriesEmptyVec]]) (by decide)

/-- C3: on an Empty node the Concatenator materializes a zero-length
series of dtype `List(Float64)`; with a resolved leaf type `some dt` that
zero-length series is cast to `dt`, and with `none` it is left at the
floating-point-derived default `List(Float64)`. -/
theorem concat_empty_spec (name : String) :
    (concat_series_tree .seriesEmptyVec none name =
      .ok { name := name, dtype := .list .float64, values := [] }) ∧
    (∀ dt : DataType, concat_series_tree .seriesEmptyVec (some dt) name =
      .ok (Series.castTo
        { name := name, dtype := .list .float64, values := [] } dt)) ∧
    (∀ dt : DataType, concat_series_tree .seriesEmptyVec (some dt) name =
      .ok { name := name, dtype := dt, values := [] }) :=
  ⟨rfl, fun _ => rfl, fun _ => rfl⟩

/-- C6: every name enumerated by `get_all_simple_type_names` resolves
through `DataType.new` to the type it canonically designates, in order;
the names are pairwise distinct and so are the resolved types. -/
theorem type_names_roundtrip_spec :
    DataType.get_all_simple_type_names.map DataType.new =
      [some .boolean, some .uint8, some .uint16, some .uint32, some .uint64,
       some .int8, some .int16, some .int32, some .int64,
       some .float32, some .float64, some .utf8, some .binary, some .date,
       some .time, some .null, some .categorical, some .unknown] ∧
    DataType.get_all_simple_type_names.Nodup ∧
    ([DataType.boolean, .uint8, .uint16, .uint32, .uint64,
      .int8, .int16, .int32, .int64, .float32, .float64, .utf8, .binary,
      .date, .time, .null, .categorical, .unknown] : List DataType).Nodup := by
  refine ⟨rfl, by decide, by decide⟩

/-- C8 counterexample: `new_join_type "Outer"` does not fail with a
recoverable error carrying the offending string — it panics with a fixed
internal-error message (which mentions neither `"Outer"` nor the accepted
choices). -/
theorem join_type_wrong_case_cex :
    new_join_type "Outer" = .panicked joinTypePanicMsg ∧
    (new_join_type "Outer").isErrB = false ∧
    joinTypePanicMsg = "rpolars internal error: jointype not recognized" :=
  ⟨rfl, rfl, rfl⟩

/-- C8 (amended): the join-kind resolver is case-sensitive — `"outer"`
resolves to the outer-join variant while `"Outer"` (wrong case) panics
with a fixed internal-error message rather than returning a recoverable
error; the rank-tie-method resolver lowercases its input first and so
accepts any casing of its six choices, and fails recoverably (with the
lowercased input and the accepted values in the message) otherwise. -/
theorem join_rank_resolvers_spec :
    (new_join_type "outer" = .ok .outer) ∧
    (new_join_type "Outer" = .panicked joinTypePanicMsg) ∧
    (∀ s, rustToLowercase s = "average" → new_rank_method s = .ok .average) ∧
    (∀ s, rustToLowercase s = "dense" → new_rank_method s = .ok .dense) ∧
    (∀ s, rustToLowercase s = "max" → new_rank_method s = .ok .max) ∧
    (∀ s, rustToLowercase s = "min" → new_rank_method s = .ok .min) ∧
    (∀ s, rustToLowercase s = "ordinal" → new_rank_method s = .ok .ordinal) ∧
    (∀ s, rustToLowercase s = "random" → new_rank_method s = .ok .random) ∧
    (new_rank_method "bogus" =
      .err ("RankMethod choice: [bogus] is not any 'average','dense', 'min', 'max', 'ordinal', 'random'")) := by
  refine ⟨rfl, rfl, ?_, ?_, ?_, ?_, ?_, ?_, by decide⟩
  all_goals intro s h
  all_goals rw [new_rank_method, h]
  all_goals decide

/-- Witness for C8: the rank resolver accepts an upper-cased choice; the
join resolver matches the exact lower-case string. -/
theorem join_rank_resolvers_spec_witness :
    new_rank_method "AVERAGE" = .ok .average ∧
    new_join_type "outer" = .ok .outer :=
  ⟨join_rank_resolvers_spec.2.2.1 "AVERAGE" (by decide),
   join_rank_resolvers_spec.1⟩

/-- C10: the type catalog resolves the name `"double"` to the 32-bit
floating-point type — the same value as `"Float32"` and not Float64 —
while the Builder converts every real-number vector to a Float64 series. -/
theorem double_name_resolves_float32_spec :
    DataType.new "double" = some .float32 ∧
    DataType.new "Float32" = some .float32 ∧
    DataType.new "double" ≠ some .float64 ∧
    (∀ (xs : List (Option Int)) (name : String), ∃ s : Series,
      recursive_robjname2series_tree (.doubles xs) name = .ok (.series s) ∧
      s.dtype = .float64) := by
  refine ⟨rfl, rfl, by decide, fun xs name => ?_⟩
  rw [recursive_robjname2series_tree]
  by_cases h : noNa xs = true
  · exact ⟨doublesFastSeries xs name, by rw [if_pos h], rfl⟩
  · exact ⟨doublesSlowSeries xs name, by rw [if_neg h], rfl⟩

/-- C2: on a Branch with one or more children the Concatenator first
recursively concatenates every child (propagating the first child
error), then checks every resulting child Series' dtype against the
first child's: the first differing child produces a `schemaMisMatch`
error naming both conflicting dtypes, and if all dtypes are equal the
children merge into one nested-list-typed Series under the given name —
no hypothesis constrains the children's lengths, the check is type-only. -/
theorem concat_branch_spec (sv : List SeriesTree) (leaf : Option DataType)
    (name : String) (hne : sv ≠ []) :
    (∀ (t : SeriesTree) (ts : List SeriesTree) (e : PolarsErr),
      sv = t :: ts → concat_series_tree t leaf "" = .error e →
      concat_series_tree (.seriesVec sv) leaf name = .error e) ∧
    (∀ e : PolarsErr, concatChildren sv leaf = .error e →
      concat_series_tree (.seriesVec sv) leaf name = .error e) ∧
    (∀ (c0 : Series) (cs : List Series),
      concatChildren sv leaf = .ok (c0 :: cs) →
      ((∀ c ∈ cs, c.dtype = c0.dtype) →
        concat_series_tree (.seriesVec sv) leaf name =
          .ok { name := name, dtype := .list c0.dtype,
                values := (c0 :: cs).map (fun c => some (.listv c.values)) }) ∧
      (∀ (pre : List Series) (bad : Series) (post : List Series),
        cs = pre ++ bad :: post →
        (∀ c ∈ pre, c.dtype = c0.dtype) →
        bad.dtype ≠ c0.dtype →
        concat_series_tree (.seriesVec sv) leaf name =
          .error (.schemaMisMatch c0.dtype bad.dtype))) := by
  have hE : sv.isEmpty = false := by
    cases sv with
    | nil => exact absurd rfl hne
    | cons a l => rfl
  refine ⟨?_, ?_, ?_⟩
  · rintro t ts e rfl herr
    have hcc : concatChildren (t :: ts) leaf = .error e := by
      rw [concatChildren, herr]
    rw [concat_series_tree]
    simp only [hE, Bool.false_eq_true, if_false, hcc]
  · intro e herr
    rw [concat_series_tree]
    simp only [hE, Bool.false_eq_true, if_false, herr]
  · intro c0 cs heq
    constructor
    · intro hall
      rw [concat_series_tree]
      simp only [hE, Bool.false_eq_true, if_false, heq,
        (firstMismatch_eq_none_iff c0.dtype cs).mpr hall]
      simp [mergeSeries]
    · rintro pre bad post rfl hpre hbad
      rw [concat_series_tree]
      simp only [hE, Bool.false_eq_true, if_false, heq,
        firstMismatch_append c0.dtype bad post pre hpre hbad]

/-- Witness for C2: two concrete sibling sub-series of equal dtype but
different lengths (2 and 0) merge successfully into a nested-list
series. -/
theorem concat_branch_spec_witness :
    concat_series_tree
      (.seriesVec [.series ⟨"a", .float64, [some (.f64 1), some (.f64 2)]⟩,
                   .seriesEmptyVec])
      (some .float64) "nm" =
      .ok { name := "nm", dtype := .list .float64,
            values := [some (.listv [some (.f64 1), some (.f64 2)]),
                       some (.listv [])] } :=
  ((concat_branch_spec
      [.series ⟨"a", .float64, [some (.f64 1), some (.f64 2)]⟩,
       .seriesEmptyVec]
      (some .float64) "nm" (List.cons_ne_nil _ _)).2.2
    ⟨"a", .float64, [some (.f64 1), some (.f64 2)]⟩
    [⟨"", .float64, []⟩] rfl).1 (by decide)

/-- C4: every tree the Builder produces satisfies the no-zero-children
Branch invariant; a zero-children source list yields the Empty variant;
and a zero-children Branch reaching the merge step fails loudly with the
invariant-violation panic, never a silently coerced result. -/
theorem builder_branch_invariant_spec :
    (∀ (x : Robj) (name : String) (t : SeriesTree),
      recursive_robjname2series_tree x name = .ok t →
      t.noEmptyBranchB = true) ∧
    (∀ name : String,
      recursive_robjname2series_tree (.rlist []) name = .ok .seriesEmptyVec) ∧
    (∀ (leaf : Option DataType) (name : String),
      concat_series_tree (.seriesVec []) leaf name =
        .error (.invariantViolationPanic emptyVecPanicMsg)) :=
  ⟨builder_noEmptyBranch, fun _ => rfl, fun _ _ => rfl⟩

/-- Witness for C4: a concrete one-child list builds a one-child Branch,
which satisfies the invariant. -/
theorem builder_branch_invariant_spec_witness :
    SeriesTree.noEmptyBranchB (.seriesVec [.seriesEmptyVec]) = true :=
  builder_branch_invariant_spec.1 (.rlist [("x", .nullR)]) "nm"
    (.seriesVec [.seriesEmptyVec]) rfl

/-- C5: for flat real, integer and text vectors with no missing markers,
the fast path (series built from the raw buffer) and the per-element
path (each element mapped to present-or-missing) produce identical
Series — same name, same dtype, same values — and the Builder takes the
fast path. -/
theorem fast_slow_path_equiv (xs_d xs_i : List (Option Int))
    (xs_s : List (Option String)) (name : String)
    (hd : noNa xs_d = true) (hi : noNa xs_i = true) (hs : noNa xs_s = true) :
    (doublesFastSeries xs_d name = doublesSlowSeries xs_d name) ∧
    (recursive_robjname2series_tree (.doubles xs_d) name =
      .ok (.series (doublesFastSeries xs_d name))) ∧
    (intsFastSeries xs_i name = intsSlowSeries xs_i name) ∧
    (recursive_robjname2series_tree (.integers xs_i) name =
      .ok (.series (intsFastSeries xs_i name))) ∧
    (stringsFastSeries xs_s name = stringsSlowSeries xs_s name) ∧
    (robj_to_utf8_series xs_s name = stringsFastSeries xs_s name) := by
  refine ⟨?_, ?_, ?_, ?_, ?_, ?_⟩
  · unfold doublesFastSeries doublesSlowSeries
    rw [filterMap_map_of_all_isSome PValue.f64 xs_d hd]
  · rw [recursive_robjname2series_tree, if_pos hd]
  · unfold intsFastSeries intsSlowSeries
    rw [filterMap_map_of_all_isSome PValue.i32 xs_i hi]
  · rw [recursive_robjname2series_tree, if_pos hi]
  · unfold stringsFastSeries stringsSlowSeries
    rw [filterMap_map_of_all_isSome PValue.str xs_s hs]
  · rw [robj_to_utf8_series, if_pos hs]

/-- Witness for C5: the path equivalence at concrete no-missing real,
integer and text vectors. -/
theorem fast_slow_path_equiv_witness :
    (doublesFastSeries [some 1, some 2] "nm" =
      doublesSlowSeries [some 1, some 2] "nm") ∧
    (recursive_robjname2series_tree (.doubles [some 1, some 2]) "nm" =
      .ok (.series (doublesFastSeries [some 1, some 2] "nm"))) ∧
    (intsFastSeries [some 3] "nm" = intsSlowSeries [some 3] "nm") ∧
    (recursive_robjname2series_tree (.integers [some 3]) "nm" =
      .ok (.series (intsFastSeries [some 3] "nm"))) ∧
    (stringsFastSeries [some "a"] "nm" = stringsSlowSeries [some "a"] "nm") ∧
    (robj_to_utf8_series [some "a"] "nm" = stringsFastSeries [some "a"] "nm") :=
  fast_slow_path_equiv [some 1, some 2] [some 3] [some "a"] "nm"
    (by decide) (by decide) (by decide)

/-- C7: building a typed column option vector from a dynamic list is
all-or-nothing — with every entry carrying a validated DataType payload
it succeeds with one `(some name, dtype)` entry per source entry in
order, and with any invalid entry it fails with the `NotADataType`
message and no partial vector. -/
theorem from_rlist_all_or_nothing_spec (entries : List (String × RDynEntry)) :
    (entries.all (fun p => p.2.validB) = true →
      DataTypeVector.from_rlist entries =
        .ok (entries.map (fun p => (some p.1, p.2.payload)))) ∧
    (entries.all (fun p => p.2.validB) = false →
      DataTypeVector.from_rlist entries = .error notADataTypeMsg) :=
  ⟨from_rlist_ok_of_all_valid entries, from_rlist_err_of_any_invalid entries⟩

/-- Witness for C7: an all-valid two-entry list succeeds in order, and a
list whose second entry is not an external pointer fails with the
`NotADataType` message. -/
theorem from_rlist_all_or_nothing_spec_witness :
    (DataTypeVector.from_rlist
      [("a", ⟨true, true, .int32⟩), ("b", ⟨true, true, .utf8⟩)] =
      .ok [(some "a", .int32), (some "b", .utf8)]) ∧
    (DataTypeVector.from_rlist
      [("a", ⟨true, true, .int32⟩), ("b", ⟨true, false, .utf8⟩)] =
      .error notADataTypeMsg) :=
  ⟨(from_rlist_all_or_nothing_spec
      [("a", ⟨true, true, .int32⟩), ("b", ⟨true, true, .utf8⟩)]).1 (by decide),
   (from_rlist_all_or_nothing_spec
      [("a", ⟨true, true, .int32⟩), ("b", ⟨true, false, .utf8⟩)]).2 (by decide)⟩

/-- Every slot of a converted UTF-8 series holds a string value. -/
theorem utf8_values_are_strings (xs : List (Option String)) (name : String) :
    ∀ ov ∈ (robj_to_utf8_series xs name).values, ∀ pv, ov = some pv →
      ∃ txt, pv = .str txt := by
  intro ov hov pv hpv
  rw [robj_to_utf8_series] at hov
  by_cases h : noNa xs = true
  · rw [if_pos h] at hov
    simp only [stringsFastSeries, List.mem_map] at hov
    obtain ⟨v, _, hveq⟩ := hov
    rw [← hveq] at hpv
    injection hpv with h2
    exact ⟨v, h2.symm⟩
  · rw [if_neg h] at hov
    simp only [stringsSlowSeries, List.mem_map] at hov
    obtain ⟨o, _, hoeq⟩ := hov
    cases o with
    | none =>
      rw [← hoeq] at hpv
      exact absurd hpv (by simp)
    | some v =>
      rw [← hoeq] at hpv
      have h2 : PValue.str v = pv := by simpa using hpv
      exact ⟨v, h2.symm⟩

/-- C9: on a factor-classed integer vector the Builder produces its Leaf
by the two-step conversion — render the factor to its string labels,
build a UTF-8 series, cast that series to the categorical dtype — so the
resulting series is categorical-typed and every present slot holds a
string label, never a raw integer code. -/
theorem factor_two_step_spec (levels : List String)
    (codes : List (Option Nat)) (name : String) :
    (recursive_robjname2series_tree (.factor levels codes) name =
      .ok (.series
        ((robj_to_utf8_series (renderFactor levels codes) name).castTo
          .categorical))) ∧
    (∃ s : Series,
      recursive_robjname2series_tree (.factor levels codes) name =
        .ok (.series s) ∧
      s.dtype = .categorical ∧
      ∀ ov ∈ s.values, ∀ pv, ov = some pv → ∃ txt, pv = .str txt) :=
  ⟨rfl, ⟨_, rfl, rfl, utf8_values_are_strings (renderFactor levels codes) name⟩⟩

/-- Witness for C9: a concrete two-level factor with an NA code converts
to a categorical series of string labels. -/
theorem factor_two_step_spec_witness :
    ∃ s : Series,
      recursive_robjname2series_tree
        (.factor ["lo", "hi"] [some 2, none, some 1]) "f" = .ok (.series s) ∧
      s.dtype = .categorical ∧
      ∀ ov ∈ s.values, ∀ pv, ov = some pv → ∃ txt, pv = .str txt :=
  (factor_two_step_spec ["lo", "hi"] [some 2, none, some 1] "f").2

/-- Witness for C10: a concrete one-element real vector converts to a
Float64 series. -/
theorem double_name_resolves_float32_spec_witness :
    ∃ s : Series,
      recursive_robjname2series_tree (.doubles [some 5]) "d" =
        .ok (.series s) ∧
      s.dtype = .float64 :=
  double_name_resolves_float32_spec.2.2.2 [some 5] "d"
